import Mathlib

/-!
Shallow embedding of the Nearby-Places Discovery workflow of the LocaLoop
mobile client, covering the map screen (`MapsScreen.tsx`) and the dashboard
screen (`DashboardScreen.tsx`): location-permission gating, the places query
(category-to-token mapping, fixed 5000 m radius), client-side free-text
filtering, result truncation, and the event-serialized response handling.

Modelling conventions:
- JavaScript strings that undergo case mapping or trimming are modelled as
  lists of Unicode code points (`JStr := List Nat`); identifier-like strings
  (category ids, status codes, API tokens) stay as Lean `String`.
- Coordinates are modelled as `Int`; no claim computes with their values.
  The map viewport deltas (0.05 in the source) are stored in hundredths.
- The `async` handlers are embedded as pure transition functions from the
  pre-state and the network response to the post-state plus observable
  effects (request issued, alert raised), which is faithful because the
  source serializes all state mutations on one logical thread per screen.
-/

namespace LocaLoop

/-- JavaScript string, as a list of Unicode code points. -/
abbrev JStr := List Nat

/-- Code points of a Lean string literal, for writing concrete `JStr` values. -/
def strCodes (s : String) : JStr := s.data.map Char.toNat

/-- JavaScript `String.prototype.toLowerCase` on one code point, restricted to
the ASCII range that the embedded screens use (A-Z map to a-z). -/
def lowerCode (c : Nat) : Nat := if 65 ≤ c ∧ c ≤ 90 then c + 32 else c

/-- JavaScript `toLowerCase` over a whole string. -/
def jsToLower (s : JStr) : JStr := s.map lowerCode

/-- White-space code points removed by JavaScript `String.prototype.trim`. -/
def isWsCode (c : Nat) : Bool :=
  c = 9 || c = 10 || c = 11 || c = 12 || c = 13 || c = 32 || c = 160

/-- JavaScript `String.prototype.trim`: strip white space from both ends. -/
def jsTrim (s : JStr) : JStr :=
  ((s.dropWhile isWsCode).reverse.dropWhile isWsCode).reverse

/-- JavaScript `hay.includes(sub)`: substring occurrence test. -/
def jsIncludes (hay sub : JStr) : Bool := hay.tails.any fun t => sub.isPrefixOf t

/-- Substring test on Lean `String`s, via their code points. -/
def strIncludes (hay sub : String) : Bool := jsIncludes (strCodes hay) (strCodes sub)

/-- `geometry.location` of a place record. -/
structure LatLng where
  lat : Int
  lng : Int
deriving DecidableEq

/-- `geometry` of a place record. -/
structure Geometry where
  location : LatLng
deriving DecidableEq

/-- `opening_hours` of a place record. -/
structure OpeningHours where
  open_now : Bool
deriving DecidableEq

/-- A place record as returned by the nearby-search endpoint (the `Place`
interface of both screens). -/
structure Place where
  place_id : String
  name : JStr
  vicinity : JStr
  geometry : Geometry
  rating : Option Int
  types : List String
  opening_hours : Option OpeningHours
deriving DecidableEq

/-- The query parameters of one nearby-search HTTP request, as assembled into
the request URL: `location=lat,lng`, `radius`, `type`. -/
structure QueryParams where
  lat : Int
  lng : Int
  radius : Nat
  type : String
deriving DecidableEq

/-- Outcome of one `fetch` of the nearby-search endpoint, as the handlers
distinguish it: parsed JSON with `status === 'OK'` and a `results` array,
parsed JSON with a non-OK `status`, or a thrown network/parse error. -/
inductive FetchResult where
  | ok (results : List Place)
  | errStatus (status : String)
  | networkError
deriving DecidableEq

/-! ## Map screen (`MapsScreen.tsx`) -/

/-- The map screen's location state (`LocationCoords`): coordinates plus the
viewport deltas, stored in hundredths (the source's `0.05` is `5`). -/
structure Coords where
  latitude : Int
  longitude : Int
  latitudeDelta100 : Nat
  longitudeDelta100 : Nat
deriving DecidableEq

/-- The map screen's component state. -/
structure MapsState where
  location : Option Coords
  loading : Bool
  errorMsg : Option String
  places : List Place
  loadingPlaces : Bool
  selectedType : String
deriving DecidableEq

/-- Initial `useState` values of the map screen. -/
def initialMapsState : MapsState :=
  { location := none, loading := true, errorMsg := none, places := []
    loadingPlaces := false, selectedType := "restaurant" }

/-- The request URL parameters assembled by `fetchNearbyPlaces` on the map
screen: `location=lat,lng`, `radius = 5000`, `type` = the `type` argument. -/
def mapsRequest (lat lng : Int) (ty : String) : QueryParams :=
  { lat := lat, lng := lng, radius := 5000, type := ty }

/-- Post-state of the map screen's `fetchNearbyPlaces` handler once its
response is processed: the `places` state, the `loadingPlaces` flag, and
whether an error alert was raised. -/
structure FetchOutcome where
  places : List Place
  loadingPlaces : Bool
  alerted : Bool
deriving DecidableEq

/-- Response processing of `fetchNearbyPlaces` (map screen): on `status ===
'OK'` set `places` to `data.results.slice(0, 20)`; on any other status or a
thrown error, alert and leave `places` untouched; `finally` clears
`loadingPlaces`. -/
def fetchNearbyPlaces (placesBefore : List Place) (resp : FetchResult) : FetchOutcome :=
  match resp with
  | .ok results => { places := results.take 20, loadingPlaces := false, alerted := false }
  | .errStatus _ => { places := placesBefore, loadingPlaces := false, alerted := true }
  | .networkError => { places := placesBefore, loadingPlaces := false, alerted := true }

/-- `handleTypeChange` (map screen): set `selectedType`; if `location` is
present, call `fetchNearbyPlaces(location.latitude, location.longitude, type)`
with the `type` argument, so the issued request's token is the new type.
Returns the updated state and the issued request, if any. -/
def handleTypeChange (st : MapsState) (ty : String) : MapsState × Option QueryParams :=
  match st.location with
  | some c => ({ st with selectedType := ty }, some (mapsRequest c.latitude c.longitude ty))
  | none => ({ st with selectedType := ty }, none)

/-- Result of the location-acquisition call inside the mount effect:
`getCurrentPositionAsync` either yields a position or throws. -/
inductive LocationAcq where
  | position (c : Coords)
  | failure
deriving DecidableEq

/-- The map screen's mount effect: request the foreground permission; when the
status is not `'granted'`, set the error message and stop loading without
querying; otherwise acquire the position (on a throw, set the failure message)
and on success store the location and issue the initial places request with
the current `selectedType`. Returns the new state and the issued request. -/
def mapsMount (permStatus : String) (acq : LocationAcq) (st : MapsState) :
    MapsState × Option QueryParams :=
  if permStatus ≠ "granted" then
    ({ st with errorMsg := some "Permission to access location was denied", loading := false },
     none)
  else
    match acq with
    | .position c =>
        ({ st with location := some c, loading := false },
         some (mapsRequest c.latitude c.longitude st.selectedType))
    | .failure =>
        ({ st with errorMsg := some "Failed to get location", loading := false }, none)

/-- What the map screen renders at top level: the loading screen, the error
screen (with its error text and a retry control), or the main map screen. -/
inductive MapsView where
  | loadingScreen
  | errorScreen (errorText : String) (hasRetry : Bool)
  | mainScreen
deriving DecidableEq

/-- The map screen's top-level render branch: `loading` shows the spinner;
`errorMsg || !location` shows the error screen whose text is `errorMsg`
(falling back to a generic message) together with the Try-Again button;
otherwise the map renders. -/
def mapsRender (st : MapsState) : MapsView :=
  if st.loading then .loadingScreen
  else if st.errorMsg.isSome || st.location.isNone then
    .errorScreen (st.errorMsg.getD "Unable to access your location") true
  else .mainScreen

/-- One response arrival on the map screen, as it updates the `places` state:
the handler stores the processed response unconditionally — the source keeps
no request sequence number and never compares a response against the latest
issued request. -/
def applyMapsResponse (places : List Place) (resp : FetchResult) : List Place :=
  (fetchNearbyPlaces places resp).places

/-- A serialized sequence of response arrivals on the map screen, in arrival
order, each processed by the `fetchNearbyPlaces` handler. -/
def runMapsResponses (places : List Place) (resps : List FetchResult) : List Place :=
  resps.foldl applyMapsResponse places

/-! ## Dashboard screen (`DashboardScreen.tsx`) -/

/-- The dashboard screen's component state. -/
structure DashState where
  searchQuery : JStr
  selectedCategory : String
  places : List Place
  loading : Bool
  location : Option LatLng
deriving DecidableEq

/-- Initial `useState` values of the dashboard screen. -/
def initialDashState : DashState :=
  { searchQuery := [], selectedCategory := "all", places := [], loading := false
    location := none }

/-- The `switch (selectedCategory)` of `searchNearbyPlaces`: each specific
category id maps to its own token and the `default` branch (taken for
`'all'`) maps to the comma-joined union `'restaurant,cafe,laundry'`. -/
def categorySwitchType (selectedCategory : String) : String :=
  match selectedCategory with
  | "restaurant" => "restaurant"
  | "cafe" => "cafe"
  | "laundry" => "laundry"
  | _ => "restaurant,cafe,laundry"

/-- The request URL parameters assembled by `searchNearbyPlaces`:
`location=lat,lng`, `radius = 5000`, `type` from the category switch. -/
def dashRequest (loc : LatLng) (selectedCategory : String) : QueryParams :=
  { lat := loc.lat, lng := loc.lng, radius := 5000
    type := categorySwitchType selectedCategory }

/-- The dashboard's client-side text predicate on one place:
`place.name.toLowerCase().includes(q.toLowerCase()) ||
place.vicinity.toLowerCase().includes(q.toLowerCase())`. -/
def placeMatchesQuery (q : JStr) (p : Place) : Bool :=
  jsIncludes (jsToLower p.name) (jsToLower q) ||
  jsIncludes (jsToLower p.vicinity) (jsToLower q)

/-- The `if (searchQuery.trim()) { filteredPlaces = filteredPlaces.filter(…) }`
step of `searchNearbyPlaces`: the filter runs only when the trimmed query is
non-empty (a non-empty string is truthy). -/
def applySearchFilter (searchQuery : JStr) (results : List Place) : List Place :=
  if jsTrim searchQuery ≠ [] then results.filter (placeMatchesQuery searchQuery)
  else results

/-- Observable effects of one dashboard handler run: the request issued to the
places endpoint, if any, and whether an alert was raised. -/
structure DashEffects where
  request : Option QueryParams
  alerted : Bool
deriving DecidableEq

/-- `searchNearbyPlaces` (dashboard): with no `location`, alert and return
without a request (the `loading` flag is never touched on that path);
otherwise issue the request built from the current `selectedCategory` and, on
`status === 'OK'`, set `places` to the text-filtered results capped by
`.slice(0, 15)`; on a non-OK status or a thrown error, alert and leave
`places` untouched; `finally` clears `loading`. -/
def searchNearbyPlaces (st : DashState) (resp : FetchResult) : DashState × DashEffects :=
  match st.location with
  | none => (st, { request := none, alerted := true })
  | some loc =>
    let req := dashRequest loc st.selectedCategory
    match resp with
    | .ok results =>
        ({ st with places := (applySearchFilter st.searchQuery results).take 15
                   loading := false },
         { request := some req, alerted := false })
    | .errStatus _ =>
        ({ st with loading := false }, { request := some req, alerted := true })
    | .networkError =>
        ({ st with loading := false }, { request := some req, alerted := true })

/-- The guard of `handleSearch`:
`if (searchQuery.trim() || selectedCategory !== 'all')` — the trimmed query
must be truthy (non-empty) or the category must differ from `'all'`. -/
def handleSearchFires (st : DashState) : Bool :=
  !(jsTrim st.searchQuery).isEmpty || st.selectedCategory ≠ "all"

/-- `handleSearch` (dashboard): when the guard holds, run `searchNearbyPlaces`;
otherwise do nothing — no state change, no request, no alert. The `resp`
argument is the environment's response, consumed only when a request is made. -/
def handleSearch (st : DashState) (resp : FetchResult) : DashState × DashEffects :=
  if handleSearchFires st then searchNearbyPlaces st resp
  else (st, { request := none, alerted := false })

/-- The category button's `onPress` on the dashboard:
`setSelectedCategory(item.id); if (location) searchNearbyPlaces();`.
React state-update semantics: `setSelectedCategory` takes effect on the next
render, while `searchNearbyPlaces` is the closure of the current render, so
the `selectedCategory` it reads (for the `type` token) is still the previous
value. The post-state merges the scheduled category update with the response
handler's updates. -/
def categoryPress (st : DashState) (newCat : String) (resp : FetchResult) :
    DashState × DashEffects :=
  match st.location with
  | some _ =>
      let (after, eff) := searchNearbyPlaces st resp
      ({ after with selectedCategory := newCat }, eff)
  | none =>
      ({ st with selectedCategory := newCat }, { request := none, alerted := false })

/-- One response arrival on the dashboard, as `searchNearbyPlaces` processes
it: like the map screen, the handler stores the processed response
unconditionally — no request sequence number, no staleness check. -/
def applyDashResponse (st : DashState) (resp : FetchResult) : DashState :=
  (searchNearbyPlaces st resp).1

/-- A serialized sequence of response arrivals on the dashboard, in arrival
order, each processed by the `searchNearbyPlaces` handler. -/
def runDashResponses (st : DashState) (resps : List FetchResult) : DashState :=
  resps.foldl applyDashResponse st

/-! ## Concrete fixtures -/

/-- A place record with the given id and name and default remaining fields. -/
def mkPlace (id : String) (nm : JStr) : Place :=
  { place_id := id, name := nm, vicinity := [], geometry := ⟨⟨0, 0⟩⟩
    rating := none, types := [], opening_hours := none }

/-- Payload of the example first-issued query's response. -/
def placeA : Place := mkPlace "pA" (strCodes "Alpha")

/-- Payload of the example second-issued query's response. -/
def placeB : Place := mkPlace "pB" (strCodes "Beta")

/-- A place whose name is `"x"` (code 120). -/
def placeX : Place := mkPlace "px" [120]

/-- Fifteen places named `"a"` (code 97), not matching the query `"x"`. -/
def fillerPlaces : List Place := (List.range 15).map fun i => mkPlace (toString i) [97]

/-- A sixteen-record provider response whose only match for `"x"` is last. -/
def providerResults16 : List Place := fillerPlaces ++ [placeX]

/-- An example dashboard location. -/
def dashLoc : LatLng := { lat := 1, lng := 2 }

/-- Dashboard state with location present and the default `'all'` category. -/
def dashStateAll : DashState := { initialDashState with location := some dashLoc }

/-- Dashboard state with location present and category `'cafe'`. -/
def dashStateCafe : DashState := { dashStateAll with selectedCategory := "cafe" }

/-- Dashboard state with location present and search text `"x"`. -/
def dashStateSearchX : DashState := { dashStateAll with searchQuery := [120] }

/-- Dashboard state whose search text is a single space (code 32). -/
def dashStateSpace : DashState := { dashStateAll with searchQuery := [32] }

/-- Dashboard state holding one previously fetched place. -/
def dashWithPlaces : DashState := { dashStateAll with places := [placeA] }

/-- An example map-screen coordinate (deltas 0.05, stored as 5 hundredths). -/
def mapsCoords : Coords := { latitude := 1, longitude := 2
                             latitudeDelta100 := 5, longitudeDelta100 := 5 }

/-- Map-screen state with a located user. -/
def mapsStateLocated : MapsState :=
  { initialMapsState with location := some mapsCoords, loading := false }

/-! ## Helper lemmas -/

/-- The client-side text filter only drops records: its output is an
order-preserving subsequence of its input. -/
theorem applySearchFilter_sublist (q : JStr) (rs : List Place) :
    List.Sublist (applySearchFilter q rs) rs := by
  unfold applySearchFilter
  split
  · exact List.filter_sublist _
  · exact List.Sublist.refl _

/-- Processing one dashboard response changes only `places` and `loading`:
the search text, the selected category and the location persist. -/
theorem applyDashResponse_preserves (st : DashState) (r : FetchResult) :
    (applyDashResponse st r).searchQuery = st.searchQuery ∧
    (applyDashResponse st r).selectedCategory = st.selectedCategory ∧
    (applyDashResponse st r).location = st.location := by
  cases hl : st.location <;> cases r <;> simp [applyDashResponse, searchNearbyPlaces, hl]

/-- A whole arrival sequence on the dashboard preserves the search text and
the location. -/
theorem runDashResponses_preserves (rs : List FetchResult) (st : DashState) :
    (runDashResponses st rs).searchQuery = st.searchQuery ∧
    (runDashResponses st rs).location = st.location := by
  induction rs generalizing st with
  | nil => exact ⟨rfl, rfl⟩
  | cons r rs ih =>
    have hp := applyDashResponse_preserves st r
    have hi := ih (applyDashResponse st r)
    exact ⟨hi.1.trans hp.1, hi.2.trans hp.2.2⟩

/-! ## Claim theorems -/

/-- C5: the category token sent in the query's `type` parameter is a
deterministic function of the selection — on the dashboard, the issued
request's token is exactly `categorySwitchType` of the selected category,
where `"all"` maps to the comma-joined union `"restaurant,cafe,laundry"` and
each specific category maps to its own single token; on the map screen, a
type change issues a request whose token is exactly the selected type. -/
theorem categoryToken_deterministic (st : DashState) (loc : LatLng) (resp : FetchResult)
    (mst : MapsState) (c : Coords) (ty : String)
    (h : st.location = some loc) (hm : mst.location = some c) :
    (searchNearbyPlaces st resp).2.request =
      some { lat := loc.lat, lng := loc.lng, radius := 5000
             type := categorySwitchType st.selectedCategory } ∧
    categorySwitchType "all" = "restaurant,cafe,laundry" ∧
    categorySwitchType "restaurant" = "restaurant" ∧
    categorySwitchType "cafe" = "cafe" ∧
    categorySwitchType "laundry" = "laundry" ∧
    (handleTypeChange mst ty).2 = some (mapsRequest c.latitude c.longitude ty) := by
  refine ⟨?_, rfl, rfl, rfl, rfl, ?_⟩
  · cases resp <;> simp [searchNearbyPlaces, h, dashRequest]
  · simp [handleTypeChange, hm]

/-- Witness for C5 at a concrete state: category `'cafe'`, location `(1,2)`. -/
theorem categoryToken_deterministic_witness :
    (searchNearbyPlaces dashStateCafe (FetchResult.ok [])).2.request =
      some { lat := dashLoc.lat, lng := dashLoc.lng, radius := 5000
             type := categorySwitchType dashStateCafe.selectedCategory } ∧
    categorySwitchType "all" = "restaurant,cafe,laundry" ∧
    (handleTypeChange mapsStateLocated "cafe").2 =
      some (mapsRequest mapsCoords.latitude mapsCoords.longitude "cafe") := by
  have h := categoryToken_deterministic dashStateCafe dashLoc (FetchResult.ok [])
    mapsStateLocated mapsCoords "cafe" rfl rfl
  exact ⟨h.1, h.2.1, h.2.2.2.2.2⟩

/-- C6: every successful response is truncated to at most `N` records in the
provider's order — at most 20 on the map screen and at most 15 on the
dashboard — and the UI-bound list is an order-preserving subsequence of the
provider's results. -/
theorem results_capped (pb rs : List Place) (st : DashState) (loc : LatLng)
    (h : st.location = some loc) :
    (fetchNearbyPlaces pb (FetchResult.ok rs)).places.length ≤ 20 ∧
    List.Sublist (fetchNearbyPlaces pb (FetchResult.ok rs)).places rs ∧
    (searchNearbyPlaces st (FetchResult.ok rs)).1.places.length ≤ 15 ∧
    List.Sublist (searchNearbyPlaces st (FetchResult.ok rs)).1.places rs := by
  refine ⟨?_, ?_, ?_, ?_⟩
  · simp [fetchNearbyPlaces, List.length_take]
  · exact List.take_sublist _ _
  · simp [searchNearbyPlaces, h, List.length_take]
  · simp only [searchNearbyPlaces, h]
    exact (List.take_sublist _ _).trans (applySearchFilter_sublist _ _)

/-- Witness for C6 at a concrete state and a 16-record response. -/
theorem results_capped_witness :
    (fetchNearbyPlaces [] (FetchResult.ok providerResults16)).places.length ≤ 20 ∧
    (searchNearbyPlaces dashStateAll (FetchResult.ok providerResults16)).1.places.length ≤ 15 := by
  have h := results_capped [] providerResults16 dashStateAll dashLoc rfl
  exact ⟨h.1, h.2.2.1⟩

/-- C7: the client-side free-text filter is case-insensitive (filtering with
`"Cafe"` and `"cafe"` yields identical subsets), filtering with the empty
string returns the unfiltered list, and the filter is idempotent. -/
theorem textFilter_caseInsensitive_empty_idempotent (ps : List Place) (q : JStr) :
    applySearchFilter (strCodes "Cafe") ps = applySearchFilter (strCodes "cafe") ps ∧
    applySearchFilter [] ps = ps ∧
    applySearchFilter q (applySearchFilter q ps) = applySearchFilter q ps := by
  refine ⟨?_, ?_, ?_⟩
  · have hl : jsToLower (strCodes "Cafe") = jsToLower (strCodes "cafe") := by decide
    have h1 : jsTrim (strCodes "Cafe") ≠ [] := by decide
    have h2 : jsTrim (strCodes "cafe") ≠ [] := by decide
    have hp : placeMatchesQuery (strCodes "Cafe") = placeMatchesQuery (strCodes "cafe") := by
      funext p
      simp [placeMatchesQuery, hl]
    simp [applySearchFilter, h1, h2, hp]
  · simp [applySearchFilter, jsTrim]
  · by_cases hq : jsTrim q = []
    · simp [applySearchFilter, hq]
    · simp [applySearchFilter, hq, List.filter_filter]

/-- C9: whenever the location permission is denied on the map screen, no
places query is issued and the screen renders the error state whose text
contains `"denied"` together with the retry control. -/
theorem permissionDenied_errorState (perm : String) (acq : LocationAcq) (st : MapsState)
    (h : perm ≠ "granted") :
    (mapsMount perm acq st).2 = none ∧
    mapsRender (mapsMount perm acq st).1 =
      MapsView.errorScreen "Permission to access location was denied" true ∧
    strIncludes "Permission to access location was denied" "denied" = true := by
  refine ⟨?_, ?_, by decide⟩
  · simp [mapsMount, h]
  · simp [mapsMount, h, mapsRender]

/-- Witness for C9 with the permission status `'denied'` on the initial state. -/
theorem permissionDenied_errorState_witness :
    (mapsMount "denied" LocationAcq.failure initialMapsState).2 = none ∧
    mapsRender (mapsMount "denied" LocationAcq.failure initialMapsState).1 =
      MapsView.errorScreen "Permission to access location was denied" true :=
  have h := permissionDenied_errorState "denied" LocationAcq.failure initialMapsState
    (by decide)
  ⟨h.1, h.2.1⟩

/-- C10: a query completing with a non-OK provider status or a network error
leaves the previous results untouched on both screens, and the loading flag is
false after completion on every path, success or failure. -/
theorem failure_atomic_loading_clears (pb : List Place) (s : String) (st : DashState)
    (loc : LatLng) (r r2 : FetchResult) (h : st.location = some loc) :
    (fetchNearbyPlaces pb (FetchResult.errStatus s)).places = pb ∧
    (fetchNearbyPlaces pb FetchResult.networkError).places = pb ∧
    (fetchNearbyPlaces pb r).loadingPlaces = false ∧
    (searchNearbyPlaces st (FetchResult.errStatus s)).1.places = st.places ∧
    (searchNearbyPlaces st FetchResult.networkError).1.places = st.places ∧
    (searchNearbyPlaces st r2).1.loading = false := by
  refine ⟨rfl, rfl, ?_, ?_, ?_, ?_⟩
  · cases r <;> rfl
  · simp [searchNearbyPlaces, h]
  · simp [searchNearbyPlaces, h]
  · cases r2 <;> simp [searchNearbyPlaces, h]

/-- Witness for C10 at a concrete state holding one place. -/
theorem failure_atomic_loading_clears_witness :
    (searchNearbyPlaces dashWithPlaces (FetchResult.errStatus "ZERO_RESULTS")).1.places =
      dashWithPlaces.places ∧
    (searchNearbyPlaces dashWithPlaces (FetchResult.ok [])).1.loading = false :=
  have h := failure_atomic_loading_clears [] "ZERO_RESULTS" dashWithPlaces dashLoc
    FetchResult.networkError (FetchResult.ok []) rfl
  ⟨h.2.2.2.1, h.2.2.2.2.2⟩

/-- C1 counterexample: queries are issued in order A then B, B's response (the
payload `[placeB]`) arrives first and A's stale response (`[placeA]`) arrives
later; the handler stores every arrival unconditionally, so the final
`places` equals A's stale payload, not B's — "last issued wins" fails. -/
theorem staleResponse_overwrites_counterexample :
    runMapsResponses []
      [FetchResult.ok [placeB], FetchResult.ok [placeA]] = [placeA] ∧
    runMapsResponses []
      [FetchResult.ok [placeB], FetchResult.ok [placeA]] ≠ [placeB] := by
  refine ⟨rfl, by decide⟩

/-- C1 amended: neither screen enforces "last issued wins" — each handler
stores every arriving response, so after any serialized arrival sequence
ending in a successful response, the final `results` is that last-arrived
response's processed payload, regardless of the order in which the requests
were issued: on the map screen the payload capped at 20, on the dashboard the
payload narrowed by the current search filter and then capped at 15. -/
theorem lastArrival_wins (init : List Place) (pre : List FetchResult)
    (finalResults : List Place) (st : DashState) (loc : LatLng)
    (dpre : List FetchResult) (h : st.location = some loc) :
    runMapsResponses init (pre ++ [FetchResult.ok finalResults]) = finalResults.take 20 ∧
    (runDashResponses st (dpre ++ [FetchResult.ok finalResults])).places =
      (applySearchFilter st.searchQuery finalResults).take 15 := by
  constructor
  · simp [runMapsResponses, List.foldl_append, applyMapsResponse, fetchNearbyPlaces]
  · have hpre := runDashResponses_preserves dpre st
    have hq : (runDashResponses st dpre).searchQuery = st.searchQuery := hpre.1
    have hl : (runDashResponses st dpre).location = some loc := hpre.2.trans h
    have hstep : runDashResponses st (dpre ++ [FetchResult.ok finalResults]) =
        applyDashResponse (runDashResponses st dpre) (FetchResult.ok finalResults) := by
      simp [runDashResponses, List.foldl_append]
    rw [hstep, applyDashResponse]
    simp [searchNearbyPlaces, hl, hq]

/-- Witness for C1's amended statement: two concrete arrivals on each screen,
the stale payload `[placeA]` arriving last and winning. -/
theorem lastArrival_wins_witness :
    runMapsResponses [] ([FetchResult.ok [placeB]] ++ [FetchResult.ok [placeA]]) =
      [placeA].take 20 ∧
    (runDashResponses dashStateAll
        ([FetchResult.ok [placeB]] ++ [FetchResult.ok [placeA]])).places =
      (applySearchFilter dashStateAll.searchQuery [placeA]).take 15 :=
  lastArrival_wins [] [FetchResult.ok [placeB]] [placeA] dashStateAll dashLoc
    [FetchResult.ok [placeB]] rfl

/-- C2: at the failing input — dashboard state with location present and
category `'all'`, user taps the `'cafe'` category — the press stores the new
category, yet the immediately issued query carries the previous selection's
token `'restaurant,cafe,laundry'` instead of the new category's own token
`'cafe'`: the handler's `searchNearbyPlaces()` closure still reads the
pre-update `selectedCategory`. -/
theorem categoryPress_uses_stale_category :
    (categoryPress dashStateAll "cafe" (FetchResult.ok [])).1.selectedCategory = "cafe" ∧
    (categoryPress dashStateAll "cafe" (FetchResult.ok [])).2.request =
      some { lat := 1, lng := 2, radius := 5000, type := "restaurant,cafe,laundry" } ∧
    categorySwitchType "cafe" = "cafe" ∧
    ("restaurant,cafe,laundry" : String) ≠ categorySwitchType "cafe" := by
  exact ⟨rfl, rfl, rfl, by decide⟩

/-- C3 counterexample: a dashboard query answered with `ZERO_RESULTS` while a
previous place is displayed — the alert is raised and loading clears, but
`results` is NOT emptied: it still holds the previous place. -/
theorem zeroResults_keeps_stale_counterexample :
    (searchNearbyPlaces dashWithPlaces (FetchResult.errStatus "ZERO_RESULTS")).1.places =
      [placeA] ∧
    (searchNearbyPlaces dashWithPlaces (FetchResult.errStatus "ZERO_RESULTS")).1.places ≠ [] ∧
    (searchNearbyPlaces dashWithPlaces (FetchResult.errStatus "ZERO_RESULTS")).2.alerted =
      true ∧
    (searchNearbyPlaces dashWithPlaces (FetchResult.errStatus "ZERO_RESULTS")).1.loading =
      false := by
  exact ⟨rfl, by decide, rfl, rfl⟩

/-- C3 amended: on a non-OK provider status (such as `ZERO_RESULTS`), an error
alert is raised and `loading` returns to false, but `results` is left
unchanged at its previous value rather than becoming empty (it is empty
afterwards only when it already was before the query). -/
theorem nonOK_alerts_keeps_results (pb : List Place) (s : String) (st : DashState)
    (loc : LatLng) (h : st.location = some loc) :
    fetchNearbyPlaces pb (FetchResult.errStatus s) =
      { places := pb, loadingPlaces := false, alerted := true } ∧
    (searchNearbyPlaces st (FetchResult.errStatus s)).1 = { st with loading := false } ∧
    (searchNearbyPlaces st (FetchResult.errStatus s)).2.alerted = true := by
  refine ⟨rfl, ?_, ?_⟩ <;> simp [searchNearbyPlaces, h]

/-- Witness for C3's amended statement at a concrete dashboard state. -/
theorem nonOK_alerts_keeps_results_witness :
    (searchNearbyPlaces dashWithPlaces (FetchResult.errStatus "ZERO_RESULTS")).1 =
      { dashWithPlaces with loading := false } ∧
    (searchNearbyPlaces dashWithPlaces (FetchResult.errStatus "ZERO_RESULTS")).2.alerted =
      true :=
  have h := nonOK_alerts_keeps_results [] "ZERO_RESULTS" dashWithPlaces dashLoc rfl
  ⟨h.2.1, h.2.2⟩

/-- C4 counterexample: a 16-record response whose only match for the search
text `"x"` is the 16th record. The dashboard narrows first and caps second, so
it displays that record; capping at 15 first and then narrowing — the order
the claim states — would display nothing. -/
theorem filter_before_cap_counterexample :
    (searchNearbyPlaces dashStateSearchX (FetchResult.ok providerResults16)).1.places =
      [placeX] ∧
    applySearchFilter dashStateSearchX.searchQuery (providerResults16.take 15) = [] ∧
    (searchNearbyPlaces dashStateSearchX (FetchResult.ok providerResults16)).1.places ≠
      applySearchFilter dashStateSearchX.searchQuery (providerResults16.take 15) := by
  refine ⟨by decide, by decide, by decide⟩

/-- C4 amended: for every successful dashboard query with a search string that
is non-empty after trimming, the displayed Result Set equals the provider's
ordered results first narrowed by the case-insensitive substring match and
then capped at 15. -/
theorem filtered_then_capped (st : DashState) (loc : LatLng) (results : List Place)
    (h : st.location = some loc) (hq : jsTrim st.searchQuery ≠ []) :
    (searchNearbyPlaces st (FetchResult.ok results)).1.places =
      (results.filter (placeMatchesQuery st.searchQuery)).take 15 := by
  simp [searchNearbyPlaces, h, applySearchFilter, hq]

/-- Witness for C4's amended statement at the 16-record response. -/
theorem filtered_then_capped_witness :
    (searchNearbyPlaces dashStateSearchX (FetchResult.ok providerResults16)).1.places =
      (providerResults16.filter (placeMatchesQuery dashStateSearchX.searchQuery)).take 15 :=
  filtered_then_capped dashStateSearchX dashLoc providerResults16 rfl (by decide)

/-- C8 counterexample: a submission with the whitespace-only search text
`" "` (non-empty as a string) and the default `'all'` category is a no-op —
no invocation, no request, no state change — although the claim's condition
"searchText non-empty OR category differs from `'all'`" holds. -/
theorem whitespace_submission_noop_counterexample :
    dashStateSpace.searchQuery ≠ [] ∧
    dashStateSpace.selectedCategory = "all" ∧
    handleSearchFires dashStateSpace = false ∧
    handleSearch dashStateSpace (FetchResult.ok [placeA]) =
      (dashStateSpace, { request := none, alerted := false }) := by
  exact ⟨by decide, rfl, by decide, rfl⟩

/-- C8 amended: an explicit dashboard search submission invokes the query
routine if and only if the search text is non-empty after trimming whitespace
OR the selected category differs from the default `'all'`; otherwise the
submission is a no-op that changes no state, issues no request and raises no
alert. (When it does fire, the HTTP request itself additionally requires
`location` to be present.) -/
theorem submission_guard (st : DashState) (resp : FetchResult) :
    (handleSearchFires st = true ↔
      (jsTrim st.searchQuery ≠ [] ∨ st.selectedCategory ≠ "all")) ∧
    (handleSearchFires st = false →
      handleSearch st resp = (st, { request := none, alerted := false })) := by
  constructor
  · simp [handleSearchFires, List.isEmpty_iff]
  · intro h
    simp [handleSearch, h]

/-- Witness for C8's amended statement: the whitespace-only, `'all'`-category
submission fails the guard and leaves everything unchanged. -/
theorem submission_guard_witness :
    handleSearch dashStateSpace (FetchResult.ok []) =
      (dashStateSpace, { request := none, alerted := false }) :=
  (submission_guard dashStateSpace (FetchResult.ok [])).2 (by decide)

end LocaLoop
